import Mathlib

/-!
Verification of the HI-401k contribution planner's calculation core.

JavaScript numbers are modelled as exact rationals (`ℚ`): every arithmetic
expression appearing in the repository is a field operation, so the ideal
(real) semantics of the code is captured exactly, and totality of the Lean
functions reflects that the JS code neither throws nor produces `NaN` on the
guarded paths.  Ages are modelled as integers (`ℤ`) so that the exponent
`years = retirementAge - age` fed to `Math.pow` is an integer and the power
is the exact `zpow` on `ℚ`.  A JS value that has gone through `Number(...)`
is modelled by `JsNum`: either a finite rational or the non-finite marker
(`NaN`/`±Infinity`, which the backend code never distinguishes: its only
observation of a non-finite number is `Number.isFinite`, which rejects all
of them before any comparison is made).
-/

/-- The two contribution kinds accepted by the system, written in the code
as the strings "percent" and "dollar".  The handlers compare strings
directly, so the embeddings below also take the kind as a `String`. -/
inductive ContributionKind where
  | percent
  | dollar
deriving DecidableEq, Repr

/-- Result of the JS `Number(...)` coercion: a finite rational, or a
non-finite value (`NaN` or `±Infinity`).  The backend only ever inspects a
non-finite value through `Number.isFinite`, which is false for all of them,
so they are collapsed into one constructor. -/
inductive JsNum where
  | num (q : ℚ)
  | nonFinite
deriving DecidableEq, Repr

/-- `Number.isFinite` from `src/backend/index.js`. -/
def JsNum.isFinite : JsNum → Bool
  | .num _ => true
  | .nonFinite => false

/-! ### Frontend normalizer (src/frontend/src/App.jsx, lines 115-138)

`isPercent` is `contributionType === "percent"`; `numericContribution` is
the numeric contribution value (`Number(contributionValue) || 0`).  The JS
falsiness tests `!salary` and `!payPeriods` on numbers are `= 0` on `ℚ`. -/

/-- `livePercent` from `App.jsx` lines 118-125: equivalent percent of the
current UI selection. -/
def livePercent (isPercent : Bool) (numericContribution salary payPeriods : ℚ) : ℚ :=
  if isPercent then
    numericContribution
  else if salary = 0 ∨ payPeriods = 0 then
    0
  else
    let yearlyDollar := numericContribution * payPeriods
    (yearlyDollar / salary) * 100

/-- `perPaycheckDollar` from `App.jsx` lines 127-133: dollar amount
contributed per paycheck.  Note the `!salary || !payPeriods` guard fires
before the kind is examined, for the Dollar kind as well. -/
def perPaycheckDollar (isPercent : Bool) (numericContribution salary payPeriods : ℚ) : ℚ :=
  if salary = 0 ∨ payPeriods = 0 then
    0
  else if isPercent then
    (salary * (numericContribution / 100)) / payPeriods
  else
    numericContribution

/-- `yearlyContribution` from `App.jsx` lines 135-138: yearly dollar amount,
derived from `perPaycheckDollar`. -/
def yearlyContribution (isPercent : Bool) (numericContribution salary payPeriods : ℚ) : ℚ :=
  if payPeriods = 0 then 0
  else perPaycheckDollar isPercent numericContribution salary payPeriods * payPeriods

/-! ### Backend equivalent-percent computation (src/backend/index.js, lines 43-50) -/

/-- `currentPercent` as computed by the GET `/api/contribution` handler in
`index.js` lines 44-50: starts at 0, is the raw value for a "percent"
selection, and otherwise converts the per-paycheck dollar amount into a
percentage of salary when `salary > 0 && payPeriodsPerYear > 0`. -/
def currentPercent (contributionType : String) (contributionValue salary payPeriodsPerYear : ℚ) : ℚ :=
  if contributionType = "percent" then
    contributionValue
  else if 0 < salary ∧ 0 < payPeriodsPerYear then
    let yearlyDollar := contributionValue * payPeriodsPerYear
    (yearlyDollar / salary) * 100
  else
    0

/-! ### Retirement projector (src/frontend/src/App.jsx, lines 20-51) -/

/-- Argument object of `computeProjection`.  The four fields the code
null-checks are `Option`s (JS `null`/`undefined`); `annualReturn` and
`contributionPercent` are plain numbers, as at both call sites (lines
144-159) they are always numbers by the time the function is called. -/
structure ProjectionInput where
  age : Option ℤ
  retirementAge : Option ℤ
  annualReturn : ℚ
  currentBalance : Option ℚ
  salary : Option ℚ
  contributionPercent : ℚ
deriving DecidableEq, Repr

/-- The annuity-factor expression from `App.jsx` line 47:
`r === 0 ? years : (Math.pow(1 + r, years) - 1) / r`. -/
def annuityFactor (r : ℚ) (years : ℤ) : ℚ :=
  if r = 0 then (years : ℚ) else ((1 + r) ^ years - 1) / r

/-- `computeProjection` from `App.jsx` lines 20-51: returns `none` (JS
`null`) when `age`, `retirementAge`, `salary` or `currentBalance` is
absent; credits one year's contribution with no growth when
`years <= 0`; otherwise compounds the balance and adds the future value of
the contribution annuity. -/
def computeProjection (inp : ProjectionInput) : Option ℚ :=
  match inp.age, inp.retirementAge, inp.salary, inp.currentBalance with
  | some age, some retirementAge, some salary, some currentBalance =>
    let years : ℤ := retirementAge - age
    let r := inp.annualReturn
    let yearlyContrib := salary * (inp.contributionPercent / 100)
    if years ≤ 0 then
      some (currentBalance + yearlyContrib)
    else
      let futureBalance := currentBalance * (1 + r) ^ years
      let futureContributions := yearlyContrib * annuityFactor r years
      some (futureBalance + futureContributions)
  | _, _, _, _ => none

/-! ### Backend state and POST /api/contribution (src/backend/index.js) -/

/-- The mock in-memory database `contributionState` from `index.js`
lines 17-26 (field shapes). -/
structure ContributionState where
  userId : String
  age : ℚ
  salary : ℚ
  payPeriodsPerYear : ℚ
  ytdContribution : ℚ
  contributionType : String
  contributionValue : ℚ
  currentBalance : ℚ
deriving DecidableEq, Repr

/-- The initial value of `contributionState` (`index.js` lines 17-26). -/
def initialContributionState : ContributionState :=
  { userId := "mock-user-123"
    age := 30
    salary := 120000
    payPeriodsPerYear := 24
    ytdContribution := 8500
    contributionType := "percent"
    contributionValue := 10
    currentBalance := 15000 }

/-- Request body of POST `/api/contribution` (`index.js` lines 71-79).
`contributionType` is a `String` (a request carrying a missing or
non-string value fails the `includes` membership test exactly as any
string outside the closed set does); `contributionValue` is the result of
the handler's `Number(contributionValue)` coercion; each optional snapshot
field is `none` when absent (`undefined`) and otherwise carries the result
of its `Number(...)` coercion. -/
structure PostBody where
  contributionType : String
  contributionValue : JsNum
  age : Option JsNum
  salary : Option JsNum
  ytdContribution : Option JsNum
  currentBalance : Option JsNum
  payPeriodsPerYear : Option JsNum
deriving DecidableEq, Repr

/-- HTTP outcome of the POST handler: status code, error message of a 400
response, and the stored state after the request. -/
structure PostOutcome where
  status : Nat
  error : Option String
  state : ContributionState
deriving DecidableEq, Repr

/-- One optional-snapshot-field update block of the POST handler
(`index.js` lines 107-140): when the field is present, finite and passes
the range check `p`, it replaces the old value; otherwise the old value is
kept. -/
def updateIfValid (p : ℚ → Prop) [DecidablePred p] (field : Option JsNum) (old : ℚ) : ℚ :=
  match field with
  | some (.num q) => if p q then q else old
  | _ => old

/-- The POST `/api/contribution` handler (`index.js` lines 70-145) as a
state transition: validation of the required contribution type and value
(four 400 paths, each leaving the state untouched), then construction of
`nextState` from the previous state with the validated selection and any
valid optional snapshot fields, which becomes the stored state. -/
def postContribution (st : ContributionState) (b : PostBody) : PostOutcome :=
  if ¬ (b.contributionType = "percent" ∨ b.contributionType = "dollar") then
    { status := 400, error := some "Invalid contributionType", state := st }
  else
    match b.contributionValue with
    | .nonFinite => { status := 400, error := some "Invalid contributionValue", state := st }
    | .num valueNum =>
      if valueNum < 0 then
        { status := 400, error := some "Invalid contributionValue", state := st }
      else if b.contributionType = "percent" ∧ 50 < valueNum then
        { status := 400, error := some "Percent too high", state := st }
      else if b.contributionType = "dollar" ∧ 5000 < valueNum then
        { status := 400, error := some "Dollar amount too high", state := st }
      else
        let nextState : ContributionState :=
          { st with
            contributionType := b.contributionType
            contributionValue := valueNum
            age := updateIfValid (fun q => 0 < q ∧ q < 100) b.age st.age
            salary := updateIfValid (fun q => 0 ≤ q) b.salary st.salary
            ytdContribution := updateIfValid (fun q => 0 ≤ q) b.ytdContribution st.ytdContribution
            currentBalance := updateIfValid (fun q => 0 ≤ q) b.currentBalance st.currentBalance
            payPeriodsPerYear :=
              updateIfValid (fun q => 0 < q ∧ q ≤ 52) b.payPeriodsPerYear st.payPeriodsPerYear }
        { status := 200, error := none, state := nextState }

/-- Well-formedness of the stored state: the contribution type is in the
closed set, the value is non-negative and within the cap of its type, the
snapshot money fields are non-negative, the age is in (0, 100) and the
pay-period count is in (0, 52].  (Finiteness is inherent to `ℚ`.) -/
def StateWF (st : ContributionState) : Prop :=
  (st.contributionType = "percent" ∨ st.contributionType = "dollar") ∧
  0 ≤ st.contributionValue ∧
  (st.contributionType = "percent" → st.contributionValue ≤ 50) ∧
  (st.contributionType = "dollar" → st.contributionValue ≤ 5000) ∧
  0 ≤ st.salary ∧ 0 ≤ st.ytdContribution ∧ 0 ≤ st.currentBalance ∧
  0 < st.age ∧ st.age < 100 ∧
  0 < st.payPeriodsPerYear ∧ st.payPeriodsPerYear ≤ 52

instance (st : ContributionState) : Decidable (StateWF st) := by
  unfold StateWF
  infer_instance

/-! ## Claims -/

/-- C1: for every contribution selection (kind "percent" or "dollar", value
≥ 0) and snapshot with salary ≥ 0 and payPeriodsPerYear in 1..52, the
equivalent percent computed by the backend GET handler (`currentPercent`)
equals the one computed by the frontend's live normalizer (`livePercent`)
from the same raw inputs. -/
theorem client_server_percent_consistent (contributionType : String)
    (v salary payPeriods : ℚ) (hv : 0 ≤ v) (hs : 0 ≤ salary)
    (hpp1 : 1 ≤ payPeriods) (hpp2 : payPeriods ≤ 52) :
    currentPercent contributionType v salary payPeriods =
      livePercent (contributionType == "percent") v salary payPeriods := by
  have hpp0 : 0 < payPeriods := lt_of_lt_of_le one_pos hpp1
  by_cases hct : contributionType = "percent"
  · simp [currentPercent, livePercent, hct]
  · have hct' : (contributionType == "percent") = false := by
      simpa using hct
    rcases eq_or_lt_of_le hs with hs0 | hs0
    · simp [currentPercent, livePercent, hct, hct', ← hs0]
    · simp [currentPercent, livePercent, hct, hct', hs0, hpp0, hs0.ne', hpp0.ne']

/-- C1 witness: concrete dollar selection, default snapshot. -/
theorem client_server_percent_consistent_witness :
    (0 : ℚ) ≤ 100 ∧ (0 : ℚ) ≤ 120000 ∧ (1 : ℚ) ≤ 24 ∧ (24 : ℚ) ≤ 52 ∧
    currentPercent "dollar" 100 120000 24 =
      livePercent ("dollar" == "percent") 100 120000 24 :=
  ⟨by norm_num, by norm_num, by norm_num, by norm_num,
    client_server_percent_consistent "dollar" 100 120000 24
      (by norm_num) (by norm_num) (by norm_num) (by norm_num)⟩

/-- C2: the projector returns `none` (JS `null`) exactly when one of the
four required inputs `age`, `retirementAge`, `salary`, `currentBalance` is
absent, and a numeric value exactly when all four are present.  Totality of
`computeProjection` on `ProjectionInput` reflects that the code never
throws. -/
theorem projection_indeterminate_iff (inp : ProjectionInput) :
    (∃ q, computeProjection inp = some q) ↔
      (inp.age ≠ none ∧ inp.retirementAge ≠ none ∧
       inp.salary ≠ none ∧ inp.currentBalance ≠ none) := by
  obtain ⟨a, ra, r, cb, s, p⟩ := inp
  rcases a with _ | a <;> rcases ra with _ | ra <;>
    rcases s with _ | s <;> rcases cb with _ | cb <;>
      simp [computeProjection] <;> split_ifs <;> simp

/-- C3 counterexample: the claim states `perPaycheckAmount = value` for a
Dollar selection with no `salary > 0` precondition, but at value 100,
salary 0, payPeriods 12 the frontend's guard `!salary || !payPeriods`
fires before the kind is examined and returns 0, not 100. -/
theorem dollar_perpaycheck_salary_zero_cex :
    perPaycheckDollar false 100 0 12 ≠ 100 := by decide

/-- C3 amended: for a Dollar selection (value ≥ 0) and snapshot with
salary ≥ 0 and payPeriodsPerYear in 1..52: when salary > 0 the normalizer
returns perPaycheckAmount = value, yearlyAmount = value * payPeriods and
equivalentPercent = (yearlyAmount / salary) * 100; when salary = 0 all
three fields are 0. -/
theorem dollar_normalization (v salary payPeriods : ℚ) (hv : 0 ≤ v)
    (hs : 0 ≤ salary) (hpp1 : 1 ≤ payPeriods) (hpp2 : payPeriods ≤ 52) :
    (0 < salary →
      perPaycheckDollar false v salary payPeriods = v ∧
      yearlyContribution false v salary payPeriods = v * payPeriods ∧
      livePercent false v salary payPeriods = v * payPeriods / salary * 100) ∧
    (salary = 0 →
      perPaycheckDollar false v salary payPeriods = 0 ∧
      yearlyContribution false v salary payPeriods = 0 ∧
      livePercent false v salary payPeriods = 0) := by
  have hpp0 : 0 < payPeriods := lt_of_lt_of_le one_pos hpp1
  constructor
  · intro hs0
    refine ⟨?_, ?_, ?_⟩ <;>
      simp [perPaycheckDollar, yearlyContribution, livePercent,
        hs0.ne', hpp0.ne']
  · intro hs0
    subst hs0
    refine ⟨?_, ?_, ?_⟩ <;>
      simp [perPaycheckDollar, yearlyContribution, livePercent]

/-- C3 amended witness: value 100, salary 120000, 24 pay periods. -/
theorem dollar_normalization_witness :
    (0 : ℚ) ≤ 100 ∧ (0 : ℚ) ≤ 120000 ∧ (1 : ℚ) ≤ 24 ∧ (24 : ℚ) ≤ 52 ∧
    ((0 : ℚ) < 120000 →
      perPaycheckDollar false 100 120000 24 = 100 ∧
      yearlyContribution false 100 120000 24 = 100 * 24 ∧
      livePercent false 100 120000 24 = 100 * 24 / 120000 * 100) :=
  ⟨by norm_num, by norm_num, by norm_num, by norm_num,
    (dollar_normalization 100 120000 24
      (by norm_num) (by norm_num) (by norm_num) (by norm_num)).1⟩

/-- C4: for a Dollar selection, whenever salary = 0 or payPeriods = 0 the
normalizer returns equivalentPercent = 0, perPaycheckAmount = 0 and
yearlyAmount = 0.  The three functions are total on `ℚ`, reflecting that
no computation path throws or produces `NaN`/`Infinity`. -/
theorem dollar_zero_guard (v salary payPeriods : ℚ)
    (h : salary = 0 ∨ payPeriods = 0) :
    livePercent false v salary payPeriods = 0 ∧
    perPaycheckDollar false v salary payPeriods = 0 ∧
    yearlyContribution false v salary payPeriods = 0 := by
  rcases h with h | h <;> subst h <;>
    refine ⟨?_, ?_, ?_⟩ <;>
      simp [livePercent, perPaycheckDollar, yearlyContribution]

/-- C4 witness: value 100, salary 0, 12 pay periods. -/
theorem dollar_zero_guard_witness :
    ((0 : ℚ) = 0 ∨ (12 : ℚ) = 0) ∧
    (livePercent false 100 0 12 = 0 ∧
     perPaycheckDollar false 100 0 12 = 0 ∧
     yearlyContribution false 100 0 12 = 0) :=
  ⟨Or.inl rfl, dollar_zero_guard 100 0 12 (Or.inl rfl)⟩

/-- C5: when all required inputs are present and
`years = retirementAge - age ≤ 0`, the projected balance is exactly
`currentBalance + yearlyContributionAmount`, with no growth factor; here
`yearlyContributionAmount = salary * (contributionPercent / 100)` as
computed on line 39 of `App.jsx`. -/
theorem projection_at_retirement (a ra : ℤ) (r cb s p : ℚ)
    (h : ra - a ≤ 0) :
    computeProjection ⟨some a, some ra, r, some cb, some s, p⟩ =
      some (cb + s * (p / 100)) := by
  simp [computeProjection, h]

/-- C5 witness: age 70, retirement age 65. -/
theorem projection_at_retirement_witness :
    (65 - 70 : ℤ) ≤ 0 ∧
    computeProjection ⟨some 70, some 65, 1/20, some 15000, some 120000, 10⟩ =
      some (15000 + 120000 * (10 / 100)) :=
  ⟨by decide, projection_at_retirement 70 65 (1/20) 15000 120000 10 (by decide)⟩

/-- C6: with zero annual return and `years > 0`, the annuity factor equals
`years` and the projected balance is
`currentBalance + yearlyContributionAmount * years`. -/
theorem projection_zero_return (a ra : ℤ) (cb s p : ℚ)
    (h : 0 < ra - a) :
    annuityFactor 0 (ra - a) = ((ra - a : ℤ) : ℚ) ∧
    computeProjection ⟨some a, some ra, 0, some cb, some s, p⟩ =
      some (cb + s * (p / 100) * ((ra - a : ℤ) : ℚ)) := by
  refine ⟨by simp [annuityFactor], ?_⟩
  simp [computeProjection, annuityFactor, h.not_le]

/-- C6 witness: age 30, retirement age 65. -/
theorem projection_zero_return_witness :
    (0 : ℤ) < 65 - 30 ∧
    (annuityFactor 0 (65 - 30) = ((65 - 30 : ℤ) : ℚ) ∧
     computeProjection ⟨some 30, some 65, 0, some 15000, some 120000, 10⟩ =
       some (15000 + 120000 * (10 / 100) * ((65 - 30 : ℤ) : ℚ))) :=
  ⟨by decide, projection_zero_return 30 65 15000 120000 10 (by decide)⟩

/-- C7: for a Percent selection with value v, salary > 0 and
payPeriods > 0, the normalizer returns equivalentPercent = v,
perPaycheckAmount = salary * (v/100) / payPeriods and
yearlyAmount = salary * (v/100). -/
theorem percent_normalization (v salary payPeriods : ℚ)
    (hs : 0 < salary) (hpp : 0 < payPeriods) :
    livePercent true v salary payPeriods = v ∧
    perPaycheckDollar true v salary payPeriods =
      salary * (v / 100) / payPeriods ∧
    yearlyContribution true v salary payPeriods = salary * (v / 100) := by
  refine ⟨by simp [livePercent], ?_, ?_⟩
  · simp [perPaycheckDollar, hs.ne', hpp.ne']
  · simp [yearlyContribution, perPaycheckDollar, hs.ne', hpp.ne']

/-- C7 witness: 10 percent, salary 120000, 24 pay periods. -/
theorem percent_normalization_witness :
    (0 : ℚ) < 120000 ∧ (0 : ℚ) < 24 ∧
    (livePercent true 10 120000 24 = 10 ∧
     perPaycheckDollar true 10 120000 24 = 120000 * (10 / 100) / 24 ∧
     yearlyContribution true 10 120000 24 = 120000 * (10 / 100)) :=
  ⟨by norm_num, by norm_num,
    percent_normalization 10 120000 24 (by norm_num) (by norm_num)⟩

/-- The annuity factor is strictly positive when the return rate is
non-negative and the horizon is positive (helper for C8). -/
theorem annuityFactor_pos (r : ℚ) (years : ℤ) (hr : 0 ≤ r)
    (hy : 0 < years) : 0 < annuityFactor r years := by
  unfold annuityFactor
  rcases eq_or_lt_of_le hr with hr0 | hr0
  · rw [if_pos hr0.symm]
    exact_mod_cast hy
  · rw [if_neg hr0.ne']
    apply div_pos _ hr0
    have h1 : (1 : ℚ) < 1 + r := by linarith
    have h2 : (1 : ℚ) < (1 + r) ^ years := one_lt_zpow₀ h1 hy
    linarith

/-- C8: with salary > 0, years > 0, annualReturn ≥ 0 and all required
inputs present, increasing the contribution percent by any positive delta
strictly increases the projected balance. -/
theorem projection_strict_mono (a ra : ℤ) (r cb s p d : ℚ)
    (hs : 0 < s) (hy : 0 < ra - a) (hr : 0 ≤ r) (hd : 0 < d) :
    ∃ v w,
      computeProjection ⟨some a, some ra, r, some cb, some s, p⟩ = some v ∧
      computeProjection ⟨some a, some ra, r, some cb, some s, p + d⟩ = some w ∧
      v < w := by
  refine ⟨cb * (1 + r) ^ (ra - a) + s * (p / 100) * annuityFactor r (ra - a),
    cb * (1 + r) ^ (ra - a) + s * ((p + d) / 100) * annuityFactor r (ra - a),
    by simp [computeProjection, hy.not_le], by simp [computeProjection, hy.not_le], ?_⟩
  have hF : 0 < annuityFactor r (ra - a) := annuityFactor_pos r (ra - a) hr hy
  have hsF : 0 < s * annuityFactor r (ra - a) * d := by positivity
  nlinarith [hsF]

/-- C8 witness: age 30, retirement age 65, 5% return, +1 percentage
point. -/
theorem projection_strict_mono_witness :
    (0 : ℚ) < 120000 ∧ (0 : ℤ) < 65 - 30 ∧ (0 : ℚ) ≤ 1/20 ∧ (0 : ℚ) < 1 ∧
    (∃ v w,
      computeProjection ⟨some 30, some 65, 1/20, some 15000, some 120000, 10⟩ = some v ∧
      computeProjection ⟨some 30, some 65, 1/20, some 15000, some 120000, 10 + 1⟩ = some w ∧
      v < w) :=
  ⟨by norm_num, by decide, by norm_num, by norm_num,
    projection_strict_mono 30 65 (1/20) 15000 120000 10 1
      (by norm_num) (by decide) (by norm_num) (by norm_num)⟩

/-- C9: whenever POST `/api/contribution` rejects a request with status
400 (invalid type, non-finite or negative value, percent above 50, dollar
above 5000), the stored state is left completely unchanged by that
request. -/
theorem post_reject_preserves_state (st : ContributionState) (b : PostBody)
    (h : (postContribution st b).status = 400) :
    (postContribution st b).state = st := by
  obtain ⟨ct, cv, bage, bsal, bytd, bbal, bpp⟩ := b
  rcases cv with q | _ <;>
    simp only [postContribution] at h ⊢ <;>
      split_ifs at h ⊢ <;> simp_all

/-- C9 witness: a request with an unknown contribution type is rejected
and leaves the initial state untouched. -/
theorem post_reject_preserves_state_witness :
    (postContribution initialContributionState
      ⟨"bitcoin", .num 10, none, none, none, none, none⟩).status = 400 ∧
    (postContribution initialContributionState
      ⟨"bitcoin", .num 10, none, none, none, none, none⟩).state =
      initialContributionState :=
  ⟨by decide,
    post_reject_preserves_state initialContributionState
      ⟨"bitcoin", .num 10, none, none, none, none, none⟩ (by decide)⟩

/-- A property holding of every value accepted by the range check and of
the old value holds of the updated field (helper for C10). -/
theorem updateIfValid_pres (p : ℚ → Prop) [DecidablePred p] (C : ℚ → Prop)
    (field : Option JsNum) (old : ℚ) (hp : ∀ q, p q → C q) (hold : C old) :
    C (updateIfValid p field old) := by
  rcases field with _ | j
  · exact hold
  · rcases j with q | _
    · simp only [updateIfValid]
      split_ifs with hq
      · exact hp q hq
      · exact hold
    · exact hold

/-- C10: the initial `contributionState` is well-formed, and every POST
request — accepted or rejected — preserves well-formedness: the stored
contribution type stays in the closed set, the value stays within the cap
of its type, and invalid or missing optional snapshot fields keep the
prior stored value instead of violating the invariant. -/
theorem post_preserves_wf :
    StateWF initialContributionState ∧
    ∀ st b, StateWF st → StateWF (postContribution st b).state := by
  refine ⟨by decide, ?_⟩
  intro st b hwf
  obtain ⟨ct, cv, bage, bsal, bytd, bbal, bpp⟩ := b
  rcases cv with q | _
  · simp only [postContribution]
    split_ifs with h1 h2 h3 h4
    · exact hwf
    · exact hwf
    · exact hwf
    · obtain ⟨hct, hv0, hvp, hvd, hs, hy, hb, ha1, ha2, hp1, hp2⟩ := hwf
      have hage := updateIfValid_pres (fun q => 0 < q ∧ q < 100)
        (fun q => 0 < q ∧ q < 100) bage st.age (fun _ h => h) ⟨ha1, ha2⟩
      have hsal := updateIfValid_pres (fun q => 0 ≤ q) (fun q => 0 ≤ q)
        bsal st.salary (fun _ h => h) hs
      have hytd := updateIfValid_pres (fun q => 0 ≤ q) (fun q => 0 ≤ q)
        bytd st.ytdContribution (fun _ h => h) hy
      have hbal := updateIfValid_pres (fun q => 0 ≤ q) (fun q => 0 ≤ q)
        bbal st.currentBalance (fun _ h => h) hb
      have hpp := updateIfValid_pres (fun q => 0 < q ∧ q ≤ 52)
        (fun q => 0 < q ∧ q ≤ 52) bpp st.payPeriodsPerYear
        (fun _ h => h) ⟨hp1, hp2⟩
      exact ⟨h1, le_of_not_lt h2,
        fun hp => le_of_not_lt (fun h50 => h3 ⟨hp, h50⟩),
        fun hd => le_of_not_lt (fun h5000 => h4 ⟨hd, h5000⟩),
        hsal, hytd, hbal, hage.1, hage.2, hpp.1, hpp.2⟩
    · exact hwf
  · simp only [postContribution]
    split_ifs
    · exact hwf
    · exact hwf

/-- C10 witness: a request updating value and snapshot fields, applied to
the well-formed initial state, yields a well-formed state. -/
theorem post_preserves_wf_witness :
    StateWF initialContributionState ∧
    StateWF (postContribution initialContributionState
      ⟨"dollar", .num 200, some (.num 31), some (.num 130000),
        some .nonFinite, some (.num (-5)), some (.num 26)⟩).state :=
  ⟨post_preserves_wf.1,
    post_preserves_wf.2 initialContributionState
      ⟨"dollar", .num 200, some (.num 31), some (.num 130000),
        some .nonFinite, some (.num (-5)), some (.num 26)⟩ (by decide)⟩
